import Mathlib

/-!
Shallow embedding of the DaimaPay C2B airtime server (src/server.js).

The embedding covers the components the claims are about:
  - the carrier classifier detectCarrier (lines 140-180),
  - the float ledger updateCarrierFloatBalance (lines 378-419),
  - the provider gateway sendSafaricomAirtime (lines 229-297) and
    sendAfricasTalkingAirtime (lines 306-369),
  - the C2B confirmation handler (lines 461-784).

Modelling decisions:
  - every monetary JS number in this system is a decimal with at most two
    fractional digits (M-Pesa amounts, and the provider-reported balance
    parsed by a two-decimal regex), so money is represented exactly as an
    integer count of hundredths; sums, signs and comparisons with zero
    are preserved by this encoding;
  - Firestore documents are Lean structures; the transactions collection
    (keyed by external id) is a function from ids to optional records,
    the sales and errors collections are lists, the two float documents
    are optional balance values (absent document = none);
  - a stored balance field is either numeric or not (parseFloat of a
    non-numeric value is NaN, which the ledger rejects);
  - Firestore transactions are all-or-nothing: a throw inside the
    transaction body aborts every buffered write, so a failing ledger
    call returns the unchanged store;
  - Firestore update on a document rejects an undefined field value and
    rejects a missing document, both modelled as a thrown error;
  - external behaviour (provider responses, token fetches, injected
    store failures) is a World value passed to the handler;
  - the ServerState carries a ghost event trace recording ledger
    adjustment attempts and commits, dispatch calls, and direct
    reconciliation write attempts, so that claims about operational
    behaviour (debited exactly once, no dispatch call made, credit-back
    attempted) are expressible;
  - the JS distinction between an absent field (undefined) and an
    explicit null matters for the newSafaricomFloatBalance field and is
    modelled by the three-valued JsOpt;
  - string primitives used by the source (trim, startsWith, slice,
    substring, toUpperCase) are implemented on the character list so
    they compute in the kernel;
  - the HTTP response is the first res.json executed by the handler
    (later writes on an already-sent response do not reach the caller).
-/

/-- Decidable equality for Except values, used to evaluate the Africas
Talking dispatch outcome on concrete inputs. -/
instance {ε α : Type} [DecidableEq ε] [DecidableEq α] :
    DecidableEq (Except ε α) := fun x y =>
  match x, y with
  | Except.error a, Except.error b =>
      if h : a = b then Decidable.isTrue (congrArg Except.error h)
      else Decidable.isFalse (fun hh => h (Except.error.inj hh))
  | Except.ok a, Except.ok b =>
      if h : a = b then Decidable.isTrue (congrArg Except.ok h)
      else Decidable.isFalse (fun hh => h (Except.ok.inj hh))
  | Except.error _, Except.ok _ =>
      Decidable.isFalse (fun hh => Except.noConfusion hh)
  | Except.ok _, Except.error _ =>
      Decidable.isFalse (fun hh => Except.noConfusion hh)

/-! ## String primitives on character lists -/

/-- JS String.prototype.trim: strip whitespace at both ends. -/
def jsTrim (s : String) : String :=
  ⟨(((s.data.dropWhile Char.isWhitespace).reverse).dropWhile
      Char.isWhitespace).reverse⟩

/-- Test whether p is a leading substring of s (JS startsWith). -/
def strStarts (s p : String) : Bool :=
  p.data.isPrefixOf s.data

/-- Drop the first n characters of s (JS slice from index n). -/
def strDropN (s : String) (n : Nat) : String :=
  ⟨s.data.drop n⟩

/-- Keep the first n characters of s. -/
def strTakeN (s : String) (n : Nat) : String :=
  ⟨s.data.take n⟩

/-- Number of characters of s (JS length on these ASCII inputs). -/
def strLen (s : String) : Nat :=
  s.data.length

/-- Uppercase one ASCII character. -/
def upcaseChar (c : Char) : Char :=
  if 97 ≤ c.toNat && c.toNat ≤ 122 then Char.ofNat (c.toNat - 32) else c

/-- JS String.prototype.toUpperCase on ASCII strings. -/
def jsToUpperCase (s : String) : String :=
  ⟨s.data.map upcaseChar⟩

/-! ## Data model -/

/-- Value stored in the balance field of a float document: a number, or
something non-numeric that parseFloat turns into NaN. -/
inductive BalVal where
  | num (q : ℤ)
  | nonNum
deriving DecidableEq

/-- JavaScript optional value for the newSafaricomFloatBalance field of a
dispatch result: the field can be absent (undefined), explicitly null, or
a parsed number. -/
inductive JsOpt where
  | undef
  | jnull
  | num (q : ℤ)
deriving DecidableEq

/-- Normalized result shape returned by both provider dispatch functions. -/
structure DispatchResult where
  status : String
  message : String
  error : Option String := none
  safInternalId : Option String := none
  newSafaricomFloatBalance : JsOpt := JsOpt.undef
deriving DecidableEq

/-- Document in the transactions collection (an InboundPayment). -/
structure TxRecord where
  transactionID : String
  amountReceived : ℤ
  billRefNumber : String
  payerMsisdn : String
  status : String
  fulfillmentStatus : Option String := none
  linkedSaleId : Option Nat := none
  errorMessage : Option String := none
deriving DecidableEq

/-- Document in the sales collection (an AirtimeSale). -/
structure SaleRecord where
  saleId : Nat
  relatedTransactionId : String
  topupNumber : String
  amount : ℤ
  carrier : String
  status : String
  errorMessage : Option String := none
deriving DecidableEq

/-- Document appended to the errors collection (an audit ErrorRecord). -/
structure ErrorRecord where
  type : String
  subType : Option String := none
  transactionId : Option String := none
  saleId : Option Nat := none
deriving DecidableEq

/-- Ghost trace event: ledger adjustment attempts and commits, provider
dispatch calls, and direct reconciliation write attempts. -/
inductive Ev where
  | adjustAttempt (pool : String) (delta : ℤ)
  | adjustCommit (pool : String) (delta : ℤ)
  | reconWriteAttempt (v : JsOpt)
  | dispatchCall (carrier : String) (number : String) (amount : ℤ)
deriving DecidableEq

/-- State of the Firestore-backed store, plus the ghost event trace. -/
structure ServerState where
  transactions : String → Option TxRecord
  sales : List SaleRecord
  errors : List ErrorRecord
  safFloat : Option BalVal
  atFloat : Option BalVal
  nextSaleId : Nat
  events : List Ev

/-- Body of a C2B confirmation callback (the fields the handler reads). -/
structure C2BReq where
  TransID : String
  TransAmount : ℤ
  BillRefNumber : String
  MSISDN : String := ""

/-- JSON acknowledgment returned to the M-Pesa caller. -/
structure Resp where
  ResultCode : Int
  ResultDesc : String
deriving DecidableEq

/-- Behaviour of the Safaricom dealer HTTP call: the axios post either
throws or yields a response whose data may carry a responseDesc, itself
carrying an optional reference-id match and an optional balance match.
The balance regex captures digits, a dot and exactly two digits, so a
match is a whole part and a two-digit fractional part. -/
inductive SafHttp where
  | fail
  | ok (desc : Option (Option String × Option (Nat × Fin 100)))
deriving DecidableEq

/-- External behaviour of the Safaricom provider for one dispatch: token
fetch outcome, presence of the dealer environment variables, and the HTTP
response. -/
structure SafEnv where
  tokenOk : Bool
  envOk : Bool
  http : SafHttp
deriving DecidableEq

/-- External behaviour of the Africas Talking provider for one dispatch:
presence of the credentials and the send outcome (a thrown exception or
the per-recipient status list). -/
structure ATEnv where
  credsOk : Bool
  send : Except String (List String)

/-- External world for one handler run: provider behaviour plus injected
backing-store transaction failures for the debit, the reversal, and the
direct reconciliation write. -/
structure World where
  saf : SafEnv
  atp : ATEnv
  debitTxFails : Bool := false
  reversalTxFails : Bool := false
  reconWriteFails : Bool := false

/-! ## Carrier classifier (src/server.js lines 140-180) -/
def safaricomPrefixes : List String :=
  ["110", "111", "112", "113", "114", "115", "116", "117", "118", "119",
   "700", "701", "702", "703", "704", "705", "706", "707", "708", "709",
   "710", "711", "712", "713", "714", "715", "716", "717", "718", "719",
   "720", "721", "722", "723", "724", "725", "726", "727", "728", "729",
   "740", "741", "742", "743", "744", "745", "746", "748", "749",
   "757", "758", "759",
   "768", "769",
   "790", "791", "792", "793", "794", "795", "796", "797", "798", "799"]

def airtelPrefixes : List String :=
  ["100", "101", "102", "103", "104", "105", "106", "107", "108", "109",
   "730", "731", "732", "733", "734", "735", "736", "737", "738", "739",
   "750", "751", "752", "753", "754", "755", "756",
   "780", "781", "782", "783", "784", "785", "786", "787", "788", "789"]

def telkomPrefixes : List String :=
  ["770", "771", "772", "773", "774", "775", "776", "777", "778", "779"]

def equitelPrefixes : List String :=
  ["764", "765", "766", "767"]

def faibaPrefixes : List String :=
  ["747"]

/-- Replacement of the leading country code: the source replaces a match
of the anchored alternation of +254 and 254 with 0. -/
def replaceCountryCode (phoneNumber : String) : String :=
  if strStarts phoneNumber "+254" then "0" ++ strDropN phoneNumber 4
  else if strStarts phoneNumber "254" then "0" ++ strDropN phoneNumber 3
  else phoneNumber

/-- Carrier detection helper (lines 140-180): normalize, require a
ten-digit local form starting with 0, then look the three digits after
the leading zero up in the static prefix tables. -/
def detectCarrier (phoneNumber : String) : String :=
  let normalized := jsTrim (replaceCountryCode phoneNumber)
  if strLen normalized != 10 || !(strStarts normalized "0") then "Unknown"
  else
    let pre3 := strTakeN (strDropN normalized 1) 3
    if safaricomPrefixes.contains pre3 then "Safaricom"
    else if airtelPrefixes.contains pre3 then "Airtel"
    else if telkomPrefixes.contains pre3 then "Telkom"
    else if equitelPrefixes.contains pre3 then "Equitel"
    else if faibaPrefixes.contains pre3 then "Faiba"
    else "Unknown"

/-! ## Small state helpers -/
def logEv (s : ServerState) (e : Ev) : ServerState :=
  { s with events := s.events ++ [e] }

def addError (s : ServerState) (ty : String) (sub : Option String)
    (txId : Option String) (saleId : Option Nat) : ServerState :=
  { s with errors := s.errors ++
      [ErrorRecord.mk ty sub txId saleId] }

def updateTx (s : ServerState) (id : String) (f : TxRecord → TxRecord) :
    ServerState :=
  { s with transactions := fun k =>
      if k = id then (s.transactions k).map f else s.transactions k }

def updateSaleStatus (s : ServerState) (saleId : Nat) (st : String)
    (em : Option String) : ServerState :=
  { s with sales := s.sales.map (fun r =>
      if r.saleId = saleId then { r with status := st, errorMessage := em }
      else r) }

def findSale (s : ServerState) (saleId : Nat) : Option SaleRecord :=
  s.sales.find? (fun r => r.saleId = saleId)

def countErrSub (s : ServerState) (ty : String) (sub : String) : Nat :=
  (s.errors.filter (fun e => e.type = ty && e.subType = some sub)).length

def countErrTy (s : ServerState) (ty : String) : Nat :=
  (s.errors.filter (fun e => e.type = ty)).length

/-! ## Float ledger (src/server.js lines 378-419) -/
def insufficientMsg : String :=
  "Insufficient carrier-specific float balance for this transaction."

def corruptMsg : String :=
  "Float balance in document is invalid!"

/-- Body of the ledger transaction on one float document: read the
current balance (rejecting a non-numeric stored value, bootstrapping a
missing document to zero inside the transaction), add the signed amount,
reject a negative result, and buffer the write. Returns the updated
document and the new balance, or the thrown error. -/
def adjustDoc (doc : Option BalVal) (amount : ℤ) :
    Except String (Option BalVal × ℤ) :=
  match doc with
  | some BalVal.nonNum => Except.error corruptMsg
  | some (BalVal.num b) =>
      let newFloat := b + amount
      if newFloat < 0 then Except.error insufficientMsg
      else Except.ok (some (BalVal.num newFloat), newFloat)
  | none =>
      let newFloat := (0 : ℤ) + amount
      if newFloat < 0 then Except.error insufficientMsg
      else Except.ok (some (BalVal.num newFloat), newFloat)

/-- Atomic float adjustment (lines 378-419). Resolves the logical pool
name to one of the two float documents, runs the transaction body, and
commits on success; any throw aborts the transaction, leaving the store
unchanged. The storeFail flag injects a backing-store transaction
failure. The ghost trace records the attempt and, on success, the
commit. -/
def updateCarrierFloatBalance (s : ServerState) (carrierLogicalName : String)
    (amount : ℤ) (storeFail : Bool) : ServerState × Except String ℤ :=
  if carrierLogicalName = "safaricomFloat" then
    let s1 := logEv s (Ev.adjustAttempt carrierLogicalName amount)
    if storeFail then (s1, Except.error "Firestore transaction failed")
    else
      match adjustDoc s.safFloat amount with
      | Except.error e => (s1, Except.error e)
      | Except.ok (d, nb) =>
          let s2 := logEv s1 (Ev.adjustCommit carrierLogicalName amount)
          ({ s2 with safFloat := d }, Except.ok nb)
  else if carrierLogicalName = "africasTalkingFloat" then
    let s1 := logEv s (Ev.adjustAttempt carrierLogicalName amount)
    if storeFail then (s1, Except.error "Firestore transaction failed")
    else
      match adjustDoc s.atFloat amount with
      | Except.error e => (s1, Except.error e)
      | Except.ok (d, nb) =>
          let s2 := logEv s1 (Ev.adjustCommit carrierLogicalName amount)
          ({ s2 with atFloat := d }, Except.ok nb)
  else
    (s, Except.error ("Invalid float logical name provided: " ++
        carrierLogicalName))

/-- Reads the float document selected by a recognized logical pool name. -/
def poolDoc (s : ServerState) (carrierLogicalName : String) : Option BalVal :=
  if carrierLogicalName = "safaricomFloat" then s.safFloat else s.atFloat

/-! ## Provider gateway (src/server.js lines 229-369) -/

/-- Phone normalization used by the Safaricom dealer call
(lines 216-226). -/
def normalizeReceiverPhoneNumber (num : String) : String :=
  let normalized := jsTrim (replaceCountryCode num)
  if strStarts normalized "0" && strLen normalized = 10 then
    strDropN normalized 1
  else if strLen normalized = 9 && !(strStarts normalized "0") then
    strDropN normalized 1
  else num

/-- Safaricom dealer dispatch (lines 229-297): fetch the cached token
(a throw is caught and normalized to FAILED), check the dealer
environment variables, post the request, and on a 2xx response parse the
responseDesc for an internal reference and a reported new balance. A
balance match of whole part n and two-digit fractional part c denotes
the value n + c/100, i.e. 100 n + c hundredths. Absence of a
responseDesc leaves the parsed fields null; every FAILED return omits
the newSafaricomFloatBalance field (undefined). -/
def sendSafaricomAirtime (receiverNumber : String) (amount : ℤ)
    (env : SafEnv) : DispatchResult :=
  let _ := normalizeReceiverPhoneNumber receiverNumber
  let _ := amount
  if !env.tokenOk then
    { status := "FAILED", message := "Safaricom airtime send failed",
      error := some "Failed to obtain Safaricom airtime token." }
  else if !env.envOk then
    { status := "FAILED",
      message := "Missing Safaricom Dealer API credentials." }
  else
    match env.http with
    | SafHttp.fail =>
        { status := "FAILED", message := "Safaricom airtime send failed",
          error := some "axios error" }
    | SafHttp.ok descOpt =>
        let idMatch : Option String :=
          match descOpt with
          | some (idm, _) => idm
          | none => none
        let balMatch : JsOpt :=
          match descOpt with
          | some (_, some (n, c)) => JsOpt.num (100 * (n : ℤ) + (c.val : ℤ))
          | some (_, none) => JsOpt.jnull
          | none => JsOpt.jnull
        { status := "SUCCESS", message := "Safaricom airtime sent",
          safInternalId := idMatch, newSafaricomFloatBalance := balMatch }

def referenceErrorMsg : String :=
  "ReferenceError: transactionId is not defined"

/-- Body of the try block of the Africas Talking dispatch
(lines 323-368): credential check, the airtime send, and normalization
of its outcome; all failures inside the try block yield a FAILED
result. -/
def sendAfricasTalkingBody (env : ATEnv) : Except String DispatchResult :=
  Except.ok <|
    if !env.credsOk then
      { status := "FAILED",
        message := "Missing Africas Talking credentials." }
    else
      match env.send with
      | Except.error e =>
          { status := "FAILED",
            message := "Africas Talking airtime send failed (exception)",
            error := some e }
      | Except.ok statuses =>
          if statuses.head? = some "Success" then
            { status := "SUCCESS",
              message := "Africas Talking airtime sent" }
          else
            { status := "FAILED",
              message := "Africas Talking airtime send failed or not successful." }

/-- Africas Talking dispatch (lines 306-369). The leading phone-format
normalization runs before the try block; its invalid-format branch
builds a FAILED result object that references the undefined identifier
transactionId, so evaluating that object literal throws a
ReferenceError, modelled as the error case of the returned Except. -/
def sendAfricasTalkingAirtime (phoneNumber : String) (amount : ℤ)
    (carrier : String) (env : ATEnv) : Except String DispatchResult :=
  let _ := amount
  let _ := carrier
  if strStarts phoneNumber "0" then
    sendAfricasTalkingBody env
  else if strStarts phoneNumber "254" then
    sendAfricasTalkingBody env
  else if !(strStarts phoneNumber "+254") then
    Except.error referenceErrorMsg
  else
    sendAfricasTalkingBody env

/-! ## C2B confirmation handler (src/server.js lines 461-784) -/
def dupResp : Resp :=
  Resp.mk 0 "Duplicate C2B confirmation received and ignored."

def unknownCarrierResp : Resp :=
  Resp.mk 0
    "C2B confirmation received, but airtime not dispatched due to unsupported carrier."

def noMappingResp : Resp :=
  Resp.mk 0
    "C2B confirmation received, but airtime not dispatched due to internal mapping error."

def floatIssueResp : Resp :=
  Resp.mk 0
    "C2B confirmation received, but airtime not dispatched due to insufficient float."

def finalResp : Resp :=
  Resp.mk 0 "C2B confirmation received by DaimaPay server."

/-- Mapping from a detected carrier to the logical float pool name
(the switch at lines 532-561). -/
def floatNameFor (carrier : String) : Option String :=
  match carrier with
  | "Safaricom" => some "safaricomFloat"
  | "Airtel" => some "africasTalkingFloat"
  | "Telkom" => some "africasTalkingFloat"
  | "Equitel" => some "africasTalkingFloat"
  | "Faiba" => some "africasTalkingFloat"
  | _ => none

/-- Provider routing (lines 617-621): Safaricom through the dealer API,
every other carrier through Africas Talking. -/
def dispatchAirtime (topupNumber : String) (amount : ℤ) (carrier : String)
    (w : World) : Except String DispatchResult :=
  if carrier = "Safaricom" then
    Except.ok (sendSafaricomAirtime topupNumber amount w.saf)
  else
    sendAfricasTalkingAirtime topupNumber amount carrier w.atp

/-- Step 1 write (lines 495-506): record the inbound payment keyed by
the external transaction id. -/
def recordTx (req : C2BReq) (s : ServerState) : ServerState :=
  { s with transactions := fun k =>
      if k = req.TransID then
        some { transactionID := req.TransID
               amountReceived := req.TransAmount
               billRefNumber := req.BillRefNumber
               payerMsisdn := req.MSISDN
               status := "RECEIVED_PENDING_SALE" }
      else s.transactions k }

/-- Step 5 sale initialization (lines 596-614): a fresh sale document in
PENDING_DISPATCH. -/
def createSale (s : ServerState) (txId topupNumber : String) (amount : ℤ)
    (carrier : String) : ServerState × Nat :=
  let saleId := s.nextSaleId
  ({ s with
      nextSaleId := saleId + 1
      sales := s.sales ++
        [{ saleId := saleId
           relatedTransactionId := txId
           topupNumber := topupNumber
           amount := amount
           carrier := carrier
           status := "PENDING_DISPATCH" }] }, saleId)

/-- Steps 5 and 6 of the handler tail (lines 703-719): write the final
status to the sale document and the fulfillment outcome to the
transaction document. -/
def finishSale (txId : String) (saleId : Nat) (finalStatus : String)
    (em : Option String) (s : ServerState) : ServerState :=
  let s1 := updateSaleStatus s saleId finalStatus em
  updateTx s1 txId (fun t =>
    { t with
        linkedSaleId := some saleId
        fulfillmentStatus := some finalStatus
        status := if finalStatus = "COMPLETED" then "RECEIVED_FULFILLED"
          else "RECEIVED_FULFILLMENT_FAILED" })

/-- Post-dispatch processing (lines 623-718). The source first upgrades
the dispatch status to COMPLETED on SUCCESS, then branches on whether
the newSafaricomFloatBalance field of the result is strictly unequal to
null: if so it attempts a direct write of the Safaricom float document
with that value (a write of an undefined value, a missing document, or
an injected store failure throws, which is caught and logged as a
reconciliation warning); otherwise it runs the dispatch-failure
handling: log the AIRTIME_API_FAIL error record, set the sale status to
FAILED_DISPATCH_API, and attempt the compensating credit-back, logging
the FLOAT_REVERSAL_FAILED warning if that itself fails. -/
def postDispatch (txId topupNumber : String) (amount : ℤ)
    (targetCarrier poolName : String) (saleId : Nat) (r : DispatchResult)
    (w : World) (s : ServerState) : ServerState :=
  let _ := topupNumber
  let statusAfterSuccess :=
    if r.status = "SUCCESS" then "COMPLETED" else "FAILED"
  if r.newSafaricomFloatBalance ≠ JsOpt.jnull then
    let s1 := logEv s (Ev.reconWriteAttempt r.newSafaricomFloatBalance)
    let s2 :=
      match r.newSafaricomFloatBalance, s1.safFloat, w.reconWriteFails with
      | JsOpt.num q, some _, false => { s1 with safFloat := some (BalVal.num q) }
      | _, _, _ =>
          addError s1 "FLOAT_RECONCILIATION_WARNING"
            (some "SAFARICOM_REPORTED_BALANCE_UPDATE_FAILED")
            (some txId) (some saleId)
    finishSale txId saleId statusAfterSuccess none s2
  else
    let saleErrorMessage := r.error
    let s1 := addError s "AIRTIME_SALE_ERROR"
      (some ("AIRTIME_API_FAIL_" ++ jsToUpperCase targetCarrier))
      (some txId) (some saleId)
    match updateCarrierFloatBalance s1 poolName amount w.reversalTxFails with
    | (s2, Except.ok _) =>
        finishSale txId saleId "FAILED_DISPATCH_API" saleErrorMessage s2
    | (s2, Except.error _) =>
        let s3 := addError s2 "FLOAT_RECONCILIATION_WARNING"
          (some "FLOAT_REVERSAL_FAILED") (some txId) (some saleId)
        finishSale txId saleId "FAILED_DISPATCH_API" saleErrorMessage s3

/-- Catch block of the handler (lines 722-779), entered here when the
dispatch call throws: log the processing exception, mark the transaction
and the sale (already created at this point) as server errors, and, the
float having been debited, log the post-debit reconciliation warning. -/
def catchPath (txId : String) (saleId : Option Nat) (floatDebited : Bool)
    (poolName : Option String) (s : ServerState) : ServerState :=
  let s1 := addError s "C2B_PROCESSING_EXCEPTION" none (some txId) none
  let s2 := updateTx s1 txId (fun t =>
    { t with
        status := "RECEIVED_PROCESSING_ERROR"
        fulfillmentStatus := some "FAILED_SERVER_ERROR"
        errorMessage := some "Critical processing exception" })
  let s3 :=
    match saleId with
    | some sid =>
        updateSaleStatus s2 sid "FAILED_SERVER_ERROR"
          (some "Critical processing exception")
    | none => s2
  if floatDebited && poolName.isSome then
    addError s3 "FLOAT_RECONCILIATION_WARNING"
      (some "FLOAT_DEBITED_BUT_DISPATCH_FAILED_EXCEPTION")
      (some txId) saleId
  else s3

/-- C2B confirmation endpoint (lines 461-784): duplicate gate, step 1
payment record, carrier classification, pool mapping, float debit, sale
creation, provider dispatch, post-dispatch reconciliation or failure
handling, and the acknowledgment. The returned response is the first
res.json the source executes on this path. -/
def c2bConfirmation (req : C2BReq) (w : World) (s : ServerState) :
    ServerState × Resp :=
  let transactionId := req.TransID
  let amount := req.TransAmount
  let topupNumber := req.BillRefNumber
  match s.transactions transactionId with
  | some _ => (s, dupResp)
  | none =>
    let s1 := recordTx req s
    let targetCarrier := detectCarrier topupNumber
    if targetCarrier = "Unknown" then
      let s2 := addError s1 "AIRTIME_SALE_ERROR" (some "UNKNOWN_CARRIER")
        (some transactionId) none
      let s3 := updateTx s2 transactionId (fun t =>
        { t with
            status := "RECEIVED_FULFILLMENT_FAILED"
            fulfillmentStatus := some "FAILED_UNKNOWN_CARRIER"
            errorMessage := some "Unsupported carrier prefix for airtime top-up" })
      (s3, unknownCarrierResp)
    else
      match floatNameFor targetCarrier with
      | none =>
        let s2 := addError s1 "AIRTIME_SALE_ERROR" (some "NO_FLOAT_MAPPING")
          (some transactionId) none
        let s3 := updateTx s2 transactionId (fun t =>
          { t with
              status := "RECEIVED_FULFILLMENT_FAILED"
              fulfillmentStatus := some "FAILED_NO_FLOAT_MAPPING"
              errorMessage := some "No float document mapped for detected carrier" })
        (s3, noMappingResp)
      | some poolName =>
        match updateCarrierFloatBalance s1 poolName (-amount) w.debitTxFails with
        | (s2, Except.error msg) =>
          let s3 := addError s2 "AIRTIME_SALE_ERROR" (some "FLOAT_DEBIT_FAILED")
            (some transactionId) none
          let s4 := updateTx s3 transactionId (fun t =>
            { t with
                status := "RECEIVED_FLOAT_ISSUE"
                fulfillmentStatus := some "FAILED_INSUFFICIENT_FLOAT"
                errorMessage := some msg })
          (s4, floatIssueResp)
        | (s2, Except.ok _) =>
          match createSale s2 transactionId topupNumber amount targetCarrier with
          | (s3, saleId) =>
            let s4 := logEv s3 (Ev.dispatchCall targetCarrier topupNumber amount)
            match dispatchAirtime topupNumber amount targetCarrier w with
            | Except.error _ =>
                (catchPath transactionId (some saleId) true (some poolName) s4,
                 finalResp)
            | Except.ok r =>
                (postDispatch transactionId topupNumber amount targetCarrier
                   poolName saleId r w s4, finalResp)

/-! ## Concrete states for witnesses and counterexamples -/

/-- Store with no transactions, sales or errors and the given float
documents. -/
def mkState (saf aT : Option BalVal) : ServerState :=
  { transactions := fun _ => none
    sales := []
    errors := []
    safFloat := saf
    atFloat := aT
    nextSaleId := 0
    events := [] }

/-! ## Concrete fixtures for the post-dispatch claims -/

/-- Confirmation of 50 units for a number in the Safaricom range. -/
def reqSaf50 : C2BReq :=
  { TransID := "TX1", TransAmount := 50, BillRefNumber := "0712345678" }

/-- World where the Safaricom token fetch throws, so the dealer dispatch
returns a FAILED result (whose newSafaricomFloatBalance field is
absent). -/
def wSafTokenFail : World :=
  { saf := { tokenOk := false, envOk := true, http := SafHttp.fail }
    atp := { credsOk := true, send := Except.ok ["Success"] } }

/-- Same world with an injected backing-store failure for any reversal
transaction, so a credit-back, if one were attempted, would fail. -/
def wSafTokenFailRevFail : World :=
  { saf := { tokenOk := false, envOk := true, http := SafHttp.fail }
    atp := { credsOk := true, send := Except.ok ["Success"] }
    reversalTxFails := true }

/-- World where the Safaricom dispatch succeeds but the response
description carries no parsable balance, so the SUCCESS result has
newSafaricomFloatBalance null. -/
def wSafOkNoBalance : World :=
  { saf := { tokenOk := true, envOk := true,
             http := SafHttp.ok (some (some "R240101.1200.000001", none)) }
    atp := { credsOk := true, send := Except.ok ["Success"] } }

/-- Store holding a numeric Safaricom pool balance of 1000. -/
def saf1000 : ServerState := mkState (some (BalVal.num 1000)) none

/-- Sale document in PENDING_DISPATCH as created by step 5, used to
instantiate the post-dispatch claims. -/
def saleRec0 : SaleRecord :=
  { saleId := 0, relatedTransactionId := "TX1",
    topupNumber := "0712345678", amount := 50, carrier := "Safaricom",
    status := "PENDING_DISPATCH" }

/-- Store state as it stands right after the debit and sale creation of
a 50-unit Safaricom confirmation against a pool of 1000. -/
def stateWithSale : ServerState :=
  { mkState (some (BalVal.num 950)) none with
      sales := [saleRec0]
      nextSaleId := 1 }

/-- Number of sale documents related to a given transaction id. -/
def salesFor (s : ServerState) (txId : String) : Nat :=
  (s.sales.filter (fun r => r.relatedTransactionId = txId)).length

/-- Sequential application of ledger adjustments to one float document:
a successful adjustment commits and is collected, a failing one aborts
its transaction and leaves the document unchanged. Returns the final
document and the list of committed deltas. -/
def applyDeltas (doc : Option BalVal) (ds : List ℤ) :
    Option BalVal × List ℤ :=
  match ds with
  | [] => (doc, [])
  | d :: rest =>
    match adjustDoc doc d with
    | Except.ok (doc2, _) =>
        let res := applyDeltas doc2 rest
        (res.1, d :: res.2)
    | Except.error _ => applyDeltas doc rest

/-- A float document never stores a negative numeric balance. -/
def numNonneg (d : Option BalVal) : Prop :=
  ∀ q, d = some (BalVal.num q) → 0 ≤ q

/-! ## Lemmas and claim theorems -/

/-! ## Ledger lemmas -/
theorem adjustDoc_ok_shape (doc : Option BalVal) (a nb : ℤ)
    (d : Option BalVal) (h : adjustDoc doc a = Except.ok (d, nb)) :
    d = some (BalVal.num nb) ∧ 0 ≤ nb := by
  unfold adjustDoc at h
  cases doc with
  | none =>
      simp only [] at h
      split at h
      · exact absurd h (by simp)
      · rename_i hlt
        cases h
        exact ⟨rfl, le_of_not_lt hlt⟩
  | some v =>
      cases v with
      | num b =>
          simp only [] at h
          split at h
          · exact absurd h (by simp)
          · rename_i hlt
            cases h
            exact ⟨rfl, le_of_not_lt hlt⟩
      | nonNum => exact absurd h (by simp)

theorem ledger_fixed_fields (s : ServerState) (n : String) (a : ℤ)
    (f : Bool) :
    (updateCarrierFloatBalance s n a f).1.transactions = s.transactions ∧
    (updateCarrierFloatBalance s n a f).1.sales = s.sales ∧
    (updateCarrierFloatBalance s n a f).1.errors = s.errors ∧
    (updateCarrierFloatBalance s n a f).1.nextSaleId = s.nextSaleId := by
  unfold updateCarrierFloatBalance
  split
  · split
    · simp [logEv]
    · split <;> simp [logEv]
  · split
    · split
      · simp [logEv]
      · split <;> simp [logEv]
    · simp

theorem ledger_error_state (s : ServerState) (n : String) (a : ℤ)
    (f : Bool) (e : String)
    (h : (updateCarrierFloatBalance s n a f).2 = Except.error e) :
    (updateCarrierFloatBalance s n a f).1.safFloat = s.safFloat ∧
    (updateCarrierFloatBalance s n a f).1.atFloat = s.atFloat := by
  revert h
  unfold updateCarrierFloatBalance
  split
  · split
    · intro _; simp [logEv]
    · split
      · intro _; simp [logEv]
      · intro h; simp at h
  · split
    · split
      · intro _; simp [logEv]
      · split
        · intro _; simp [logEv]
        · intro h; simp at h
    · intro _; simp

theorem adjustDoc_ok_val (doc : Option BalVal) (a nb : ℤ)
    (d : Option BalVal) (h : adjustDoc doc a = Except.ok (d, nb)) :
    (∀ b, doc = some (BalVal.num b) → nb = b + a) ∧
    (doc = none → nb = a) := by
  unfold adjustDoc at h
  cases doc with
  | none =>
      simp only [] at h
      split at h
      · exact absurd h (by simp)
      · cases h
        constructor
        · intro b hb; cases hb
        · intro _; omega
  | some v =>
      cases v with
      | num b =>
          simp only [] at h
          split at h
          · exact absurd h (by simp)
          · cases h
            constructor
            · intro c hc; cases hc; rfl
            · intro hn; cases hn
      | nonNum => exact absurd h (by simp)

theorem ledger_ok_saf (s : ServerState) (a nb : ℤ) (f : Bool)
    (h : (updateCarrierFloatBalance s "safaricomFloat" a f).2
      = Except.ok nb) :
    (updateCarrierFloatBalance s "safaricomFloat" a f).1
      = { s with
          safFloat := some (BalVal.num nb)
          events := s.events ++ [Ev.adjustAttempt "safaricomFloat" a,
            Ev.adjustCommit "safaricomFloat" a] } ∧
    0 ≤ nb ∧
    (∀ b, s.safFloat = some (BalVal.num b) → nb = b + a) ∧
    (s.safFloat = none → nb = a) := by
  revert h
  unfold updateCarrierFloatBalance
  rw [if_pos rfl]
  split
  · intro h; simp at h
  · split
    · intro h; simp at h
    · rename_i hadj
      intro h
      simp only [] at h
      cases h
      obtain ⟨hd, hnb⟩ := adjustDoc_ok_shape _ _ _ _ hadj
      obtain ⟨hval, hnone⟩ := adjustDoc_ok_val _ _ _ _ hadj
      subst hd
      exact ⟨by simp [logEv], hnb, hval, hnone⟩

theorem ledger_ok_at (s : ServerState) (a nb : ℤ) (f : Bool)
    (h : (updateCarrierFloatBalance s "africasTalkingFloat" a f).2
      = Except.ok nb) :
    (updateCarrierFloatBalance s "africasTalkingFloat" a f).1
      = { s with
          atFloat := some (BalVal.num nb)
          events := s.events ++ [Ev.adjustAttempt "africasTalkingFloat" a,
            Ev.adjustCommit "africasTalkingFloat" a] } ∧
    0 ≤ nb ∧
    (∀ b, s.atFloat = some (BalVal.num b) → nb = b + a) ∧
    (s.atFloat = none → nb = a) := by
  revert h
  unfold updateCarrierFloatBalance
  rw [if_neg (by decide), if_pos rfl]
  split
  · intro h; simp at h
  · split
    · intro h; simp at h
    · rename_i hadj
      intro h
      simp only [] at h
      cases h
      obtain ⟨hd, hnb⟩ := adjustDoc_ok_shape _ _ _ _ hadj
      obtain ⟨hval, hnone⟩ := adjustDoc_ok_val _ _ _ _ hadj
      subst hd
      exact ⟨by simp [logEv], hnb, hval, hnone⟩

theorem ledger_error_state_saf (s : ServerState) (a : ℤ) (f : Bool)
    (e : String)
    (h : (updateCarrierFloatBalance s "safaricomFloat" a f).2
      = Except.error e) :
    (updateCarrierFloatBalance s "safaricomFloat" a f).1
      = { s with events := s.events ++
          [Ev.adjustAttempt "safaricomFloat" a] } := by
  revert h
  unfold updateCarrierFloatBalance
  rw [if_pos rfl]
  split
  · intro _; simp [logEv]
  · split
    · intro _; simp [logEv]
    · intro h; simp at h

theorem ledger_error_state_at (s : ServerState) (a : ℤ) (f : Bool)
    (e : String)
    (h : (updateCarrierFloatBalance s "africasTalkingFloat" a f).2
      = Except.error e) :
    (updateCarrierFloatBalance s "africasTalkingFloat" a f).1
      = { s with events := s.events ++
          [Ev.adjustAttempt "africasTalkingFloat" a] } := by
  revert h
  unfold updateCarrierFloatBalance
  rw [if_neg (by decide), if_pos rfl]
  split
  · intro _; simp [logEv]
  · split
    · intro _; simp [logEv]
    · intro h; simp at h

theorem floatNameFor_cases (c p : String) (h : floatNameFor c = some p) :
    p = "safaricomFloat" ∨ p = "africasTalkingFloat" := by
  unfold floatNameFor at h
  split at h <;> first
    | (cases h; exact Or.inl rfl)
    | (cases h; exact Or.inr rfl)
    | (exact absurd h (by simp))

theorem adjustDoc_num_ok (b δ : ℤ) (h : 0 ≤ b + δ) :
    adjustDoc (some (BalVal.num b)) δ
      = Except.ok (some (BalVal.num (b + δ)), b + δ) := by
  unfold adjustDoc
  simp only []
  rw [if_neg (by omega)]

theorem adjustDoc_num_insufficient (b δ : ℤ) (h : b + δ < 0) :
    adjustDoc (some (BalVal.num b)) δ = Except.error insufficientMsg := by
  unfold adjustDoc
  simp only []
  rw [if_pos (by omega)]

theorem adjustDoc_nonNum_eq (δ : ℤ) :
    adjustDoc (some BalVal.nonNum) δ = Except.error corruptMsg := rfl

theorem adjustDoc_none_ok (δ : ℤ) (h : 0 ≤ δ) :
    adjustDoc none δ = Except.ok (some (BalVal.num (0 + δ)), 0 + δ) := by
  unfold adjustDoc
  simp only []
  rw [if_neg (by omega)]

theorem adjustDoc_none_insufficient (δ : ℤ) (h : δ < 0) :
    adjustDoc none δ = Except.error insufficientMsg := by
  unfold adjustDoc
  simp only []
  rw [if_pos (by omega)]

/-- C2: for every pool key and delta, the Float Ledger atomic adjust run
against a stored numeric balance b returns and persists b + delta when
b + delta is nonnegative; it fails with the insufficient-float error and
leaves the stored balance unchanged when b + delta is negative; it fails
with the corrupt-balance error when the stored value is not numeric; and
when the pool document does not exist it initializes the balance to zero
inside the same transaction and proceeds from zero (succeeding with
delta for a nonnegative delta, failing with the insufficient-float error
for a negative delta) instead of failing. -/
theorem C2_atomicAdjust (s : ServerState) (poolKey : String) (δ b : ℤ)
    (hname : poolKey = "safaricomFloat" ∨ poolKey = "africasTalkingFloat") :
    (poolDoc s poolKey = some (BalVal.num b) → 0 ≤ b + δ →
      (updateCarrierFloatBalance s poolKey δ false).2 = Except.ok (b + δ) ∧
      poolDoc (updateCarrierFloatBalance s poolKey δ false).1 poolKey
        = some (BalVal.num (b + δ))) ∧
    (poolDoc s poolKey = some (BalVal.num b) → b + δ < 0 →
      (updateCarrierFloatBalance s poolKey δ false).2
        = Except.error insufficientMsg ∧
      poolDoc (updateCarrierFloatBalance s poolKey δ false).1 poolKey
        = some (BalVal.num b)) ∧
    (poolDoc s poolKey = some BalVal.nonNum →
      (updateCarrierFloatBalance s poolKey δ false).2
        = Except.error corruptMsg) ∧
    (poolDoc s poolKey = none →
      (0 ≤ δ →
        (updateCarrierFloatBalance s poolKey δ false).2 = Except.ok (0 + δ) ∧
        poolDoc (updateCarrierFloatBalance s poolKey δ false).1 poolKey
          = some (BalVal.num (0 + δ))) ∧
      (δ < 0 →
        (updateCarrierFloatBalance s poolKey δ false).2
          = Except.error insufficientMsg ∧
        poolDoc (updateCarrierFloatBalance s poolKey δ false).1 poolKey
          = none)) := by
  rcases hname with hn | hn <;> subst hn
  · unfold poolDoc
    rw [if_pos rfl]
    unfold updateCarrierFloatBalance
    rw [if_pos rfl, if_neg (by simp)]
    refine ⟨?_, ?_, ?_, ?_⟩
    · intro hdoc hge
      rw [hdoc, adjustDoc_num_ok b δ hge]
      exact ⟨rfl, by simp [poolDoc, logEv]⟩
    · intro hdoc hlt
      rw [hdoc, adjustDoc_num_insufficient b δ hlt]
      exact ⟨rfl, by simp [poolDoc, logEv, hdoc]⟩
    · intro hdoc
      rw [hdoc, adjustDoc_nonNum_eq δ]
    · intro hdoc
      rw [hdoc]
      constructor
      · intro hge
        rw [adjustDoc_none_ok δ hge]
        exact ⟨rfl, by simp [poolDoc, logEv]⟩
      · intro hlt
        rw [adjustDoc_none_insufficient δ hlt]
        exact ⟨rfl, by simp [poolDoc, logEv, hdoc]⟩
  · unfold poolDoc
    rw [if_neg (by decide)]
    unfold updateCarrierFloatBalance
    rw [if_neg (by decide), if_pos rfl, if_neg (by simp)]
    refine ⟨?_, ?_, ?_, ?_⟩
    · intro hdoc hge
      rw [hdoc, adjustDoc_num_ok b δ hge]
      exact ⟨rfl, by simp [poolDoc, logEv]⟩
    · intro hdoc hlt
      rw [hdoc, adjustDoc_num_insufficient b δ hlt]
      exact ⟨rfl, by simp [poolDoc, logEv, hdoc]⟩
    · intro hdoc
      rw [hdoc, adjustDoc_nonNum_eq δ]
    · intro hdoc
      rw [hdoc]
      constructor
      · intro hge
        rw [adjustDoc_none_ok δ hge]
        exact ⟨rfl, by simp [poolDoc, logEv]⟩
      · intro hlt
        rw [adjustDoc_none_insufficient δ hlt]
        exact ⟨rfl, by simp [poolDoc, logEv, hdoc]⟩

/-- Witness for C2 at a concrete input: debiting 30 from a Safaricom
pool holding 100 succeeds with new persisted balance 70. -/
theorem C2_atomicAdjust_witness :
    ("safaricomFloat" = "safaricomFloat" ∨
        "safaricomFloat" = "africasTalkingFloat") ∧
    poolDoc (mkState (some (BalVal.num 100)) none) "safaricomFloat"
      = some (BalVal.num 100) ∧
    (0 : ℤ) ≤ 100 + (-30) ∧
    ((updateCarrierFloatBalance (mkState (some (BalVal.num 100)) none)
        "safaricomFloat" (-30) false).2 = Except.ok (100 + (-30)) ∧
      poolDoc (updateCarrierFloatBalance
        (mkState (some (BalVal.num 100)) none)
        "safaricomFloat" (-30) false).1 "safaricomFloat"
        = some (BalVal.num (100 + (-30)))) :=
  ⟨Or.inl rfl, rfl, by decide,
    (C2_atomicAdjust (mkState (some (BalVal.num 100)) none)
      "safaricomFloat" (-30) 100 (Or.inl rfl)).1 rfl (by decide)⟩

/-- C5 (code evaluated at the failing input): for a confirmation of 50
against a Safaricom pool of 1000 whose dispatch returns a FAILED result,
the handler does not mark the sale FAILED_DISPATCH_API (it stays at the
initial FAILED), logs no AIRTIME_API_FAIL dispatch-failure record, never
attempts the compensating credit-back, and leaves the pool at its
post-debit value 950 — because the failure handling is gated on the
newSafaricomFloatBalance field (undefined here) being exactly null, not
on the FAILED status; the handler instead attempts the direct Safaricom
balance write, which fails and logs a reconciliation warning. -/
theorem C5_failed_dispatch_skips_failure_handling :
    (let out := c2bConfirmation reqSaf50 wSafTokenFail saf1000
     (sendSafaricomAirtime "0712345678" 50 wSafTokenFail.saf).status
        = "FAILED" ∧
     (findSale out.1 0).map SaleRecord.status = some "FAILED" ∧
     countErrSub out.1 "AIRTIME_SALE_ERROR" "AIRTIME_API_FAIL_SAFARICOM" = 0 ∧
     out.1.safFloat = some (BalVal.num 950) ∧
     out.1.events = [Ev.adjustAttempt "safaricomFloat" (-50),
       Ev.adjustCommit "safaricomFloat" (-50),
       Ev.dispatchCall "Safaricom" "0712345678" 50,
       Ev.reconWriteAttempt JsOpt.undef] ∧
     countErrSub out.1 "FLOAT_RECONCILIATION_WARNING"
       "SAFARICOM_REPORTED_BALANCE_UPDATE_FAILED" = 1) := by
  decide

/-- C6 (code evaluated at the failing input): after a FAILED dispatch,
even in a world where any reversal transaction would fail, the handler
never attempts the credit-back at all (no adjustment events beyond the
debit), records no FLOAT_REVERSAL_FAILED manual-reconciliation entry,
and leaves the pool at its post-debit value; the only extra audit record
is the SAFARICOM_REPORTED_BALANCE_UPDATE_FAILED warning from trying to
write an undefined balance, so the claimed ReversalFailed-class record
cannot arise from a dispatch failure. -/
theorem C6_reversal_failure_path_unreachable_after_failed_dispatch :
    (let out := c2bConfirmation reqSaf50 wSafTokenFailRevFail saf1000
     (sendSafaricomAirtime "0712345678" 50 wSafTokenFailRevFail.saf).status
        = "FAILED" ∧
     countErrSub out.1 "FLOAT_RECONCILIATION_WARNING" "FLOAT_REVERSAL_FAILED"
        = 0 ∧
     (Ev.adjustAttempt "safaricomFloat" 50 ∈ out.1.events) = False ∧
     out.1.safFloat = some (BalVal.num 950) ∧
     countErrSub out.1 "FLOAT_RECONCILIATION_WARNING"
       "SAFARICOM_REPORTED_BALANCE_UPDATE_FAILED" = 1) := by
  decide

/-- C7 (code evaluated at the failing input): for a confirmation of 50
against a Safaricom pool of 1000 whose dispatch returns SUCCESS but
whose response description carries no parsable balance (parsed field
null), the handler marks the sale FAILED_DISPATCH_API instead of
COMPLETED, marks the payment RECEIVED_FULFILLMENT_FAILED instead of
fulfilled, logs an AIRTIME_API_FAIL record, and credits the debited
amount back (pool returns to 1000) although airtime was dispatched. -/
theorem C7_success_without_balance_marked_failed :
    (let out := c2bConfirmation reqSaf50 wSafOkNoBalance saf1000
     (sendSafaricomAirtime "0712345678" 50 wSafOkNoBalance.saf).status
        = "SUCCESS" ∧
     (findSale out.1 0).map SaleRecord.status = some "FAILED_DISPATCH_API" ∧
     (out.1.transactions "TX1").map TxRecord.status
        = some "RECEIVED_FULFILLMENT_FAILED" ∧
     countErrSub out.1 "AIRTIME_SALE_ERROR" "AIRTIME_API_FAIL_SAFARICOM" = 1 ∧
     out.1.safFloat = some (BalVal.num 1000) ∧
     (Ev.adjustCommit "safaricomFloat" 50 ∈ out.1.events) = True) := by
  decide

/-- C8 (code evaluated at the failing input): the Africas Talking
dispatch function, called with a destination number that starts with
none of 0, 254 or +254, throws a ReferenceError (its invalid-format
branch references the undefined identifier transactionId) instead of
returning the FAILED DispatchResult it builds, so the gateway does throw
past its boundary on malformed input. -/
theorem C8_at_dispatch_throws_on_malformed_number :
    sendAfricasTalkingAirtime "12345" 50 "Airtel"
      { credsOk := true, send := Except.ok ["Success"] }
      = Except.error referenceErrorMsg ∧
    sendAfricasTalkingAirtime "12345" 50 "Airtel"
      { credsOk := false, send := Except.error "network down" }
      = Except.error referenceErrorMsg := by
  decide

/-- C9: for every confirmation request, world behaviour and store state,
the confirmation handler responds with a success acknowledgment
(ResultCode 0) — on the duplicate path, the unknown-carrier path, the
missing-mapping path, the float-debit-failure path, the dispatch and
reversal paths, and the exception path alike; fulfillment outcome is
never surfaced through the acknowledgment. -/
theorem C9_ack_always_success (req : C2BReq) (w : World) (s : ServerState) :
    ((c2bConfirmation req w s).2).ResultCode = 0 := by
  unfold c2bConfirmation
  dsimp only
  split
  · rfl
  · split
    · rfl
    · split
      · rfl
      · split
        · rfl
        · split
          · rfl
          · rfl

/-- C4: for every confirmation that reaches the float debit and whose
debit fails (insufficient float or any other ledger failure),
processing stops with the payment marked RECEIVED_FLOAT_ISSUE and
fulfillment status FAILED_INSUFFICIENT_FLOAT, exactly one
FLOAT_DEBIT_FAILED error record logged, a success acknowledgment
returned, no AirtimeSale created, no provider dispatch call made, and
both pool balances unchanged. -/
theorem C4_float_debit_failure_stops_processing (req : C2BReq) (w : World)
    (s : ServerState) (poolName msg : String)
    (hdup : s.transactions req.TransID = none)
    (hcar : detectCarrier req.BillRefNumber ≠ "Unknown")
    (hpool : floatNameFor (detectCarrier req.BillRefNumber) = some poolName)
    (hdebit : (updateCarrierFloatBalance (recordTx req s) poolName
        (-req.TransAmount) w.debitTxFails).2 = Except.error msg) :
    (c2bConfirmation req w s).2 = floatIssueResp ∧
    ((c2bConfirmation req w s).1.transactions req.TransID).map
        TxRecord.status = some "RECEIVED_FLOAT_ISSUE" ∧
    ((c2bConfirmation req w s).1.transactions req.TransID).map
        TxRecord.fulfillmentStatus = some (some "FAILED_INSUFFICIENT_FLOAT") ∧
    (c2bConfirmation req w s).1.sales = s.sales ∧
    (c2bConfirmation req w s).1.errors = s.errors ++
      [ErrorRecord.mk "AIRTIME_SALE_ERROR" (some "FLOAT_DEBIT_FAILED")
        (some req.TransID) none] ∧
    (c2bConfirmation req w s).1.safFloat = s.safFloat ∧
    (c2bConfirmation req w s).1.atFloat = s.atFloat ∧
    (c2bConfirmation req w s).1.events = s.events ++
      [Ev.adjustAttempt poolName (-req.TransAmount)] := by
  rcases hu : updateCarrierFloatBalance (recordTx req s) poolName
      (-req.TransAmount) w.debitTxFails with ⟨s2, res⟩
  have hres : res = Except.error msg := by rw [hu] at hdebit; exact hdebit
  subst hres
  have hstate : s2 = { recordTx req s with events :=
      (recordTx req s).events ++ [Ev.adjustAttempt poolName (-req.TransAmount)] } := by
    rcases floatNameFor_cases _ _ hpool with hp | hp <;> subst hp
    · have := ledger_error_state_saf (recordTx req s) (-req.TransAmount)
        w.debitTxFails msg hdebit
      rw [hu] at this
      exact this
    · have := ledger_error_state_at (recordTx req s) (-req.TransAmount)
        w.debitTxFails msg hdebit
      rw [hu] at this
      exact this
  unfold c2bConfirmation
  dsimp only
  rw [hdup]
  dsimp only
  rw [if_neg hcar, hpool]
  dsimp only
  rw [hu]
  dsimp only
  subst hstate
  refine ⟨rfl, ?_, ?_, ?_, ?_, ?_, ?_, ?_⟩
  · simp [updateTx, addError, recordTx]
  · simp [updateTx, addError, recordTx]
  · simp [updateTx, addError, recordTx]
  · simp [updateTx, addError, recordTx]
  · simp [updateTx, addError, recordTx]
  · simp [updateTx, addError, recordTx]
  · simp [updateTx, addError, recordTx]

/-- Witness for C4 at the spec scenario: a 50-unit payment for a
Safaricom number against a pool holding 20 is rejected with the
insufficient-float error, acknowledged with the float-issue success
response, and leaves the pool at 20. -/
theorem C4_float_debit_failure_stops_processing_witness :
    (mkState (some (BalVal.num 20)) none).transactions reqSaf50.TransID
      = none ∧
    detectCarrier reqSaf50.BillRefNumber ≠ "Unknown" ∧
    floatNameFor (detectCarrier reqSaf50.BillRefNumber)
      = some "safaricomFloat" ∧
    (updateCarrierFloatBalance
        (recordTx reqSaf50 (mkState (some (BalVal.num 20)) none))
        "safaricomFloat" (-reqSaf50.TransAmount)
        wSafTokenFail.debitTxFails).2 = Except.error insufficientMsg ∧
    (c2bConfirmation reqSaf50 wSafTokenFail
        (mkState (some (BalVal.num 20)) none)).2 = floatIssueResp ∧
    (c2bConfirmation reqSaf50 wSafTokenFail
        (mkState (some (BalVal.num 20)) none)).1.safFloat
      = (mkState (some (BalVal.num 20)) none).safFloat := by
  refine ⟨rfl, by decide, rfl, by decide, ?_, ?_⟩
  · exact (C4_float_debit_failure_stops_processing reqSaf50 wSafTokenFail
      (mkState (some (BalVal.num 20)) none) "safaricomFloat"
      insufficientMsg rfl (by decide) rfl (by decide)).1
  · exact (C4_float_debit_failure_stops_processing reqSaf50 wSafTokenFail
      (mkState (some (BalVal.num 20)) none) "safaricomFloat"
      insufficientMsg rfl (by decide) rfl (by decide)).2.2.2.2.2.1

theorem findSale_updateSaleStatus (s : ServerState) (sid : Nat)
    (st : String) (em : Option String) :
    findSale (updateSaleStatus s sid st em) sid
      = (findSale s sid).map
          (fun r => { r with status := st, errorMessage := em }) := by
  unfold findSale updateSaleStatus
  simp only []
  induction s.sales with
  | nil => rfl
  | cons a l ih =>
      simp only [List.map_cons]
      by_cases h : a.saleId = sid
      · rw [List.find?_cons_of_pos _ (by simp [h]),
          List.find?_cons_of_pos _ (by simp [h])]
        simp [h]
      · rw [List.find?_cons_of_neg _ (by simp [h]),
          List.find?_cons_of_neg _ (by simp [h])]
        exact ih

theorem findSale_congr (s1 s2 : ServerState) (sid : Nat)
    (h : s1.sales = s2.sales) : findSale s1 sid = findSale s2 sid := by
  unfold findSale
  rw [h]

theorem ledger_events_shape (s : ServerState) (n : String) (a : ℤ)
    (f : Bool)
    (hn : n = "safaricomFloat" ∨ n = "africasTalkingFloat") :
    (updateCarrierFloatBalance s n a f).1.events
      = s.events ++ [Ev.adjustAttempt n a] ∨
    (updateCarrierFloatBalance s n a f).1.events
      = s.events ++ [Ev.adjustAttempt n a, Ev.adjustCommit n a] := by
  rcases hn with hn | hn <;> subst hn
  · unfold updateCarrierFloatBalance
    rw [if_pos rfl]
    split
    · exact Or.inl (by simp [logEv])
    · split
      · exact Or.inl (by simp [logEv])
      · exact Or.inr (by simp [logEv])
  · unfold updateCarrierFloatBalance
    rw [if_neg (by decide), if_pos rfl]
    split
    · exact Or.inl (by simp [logEv])
    · split
      · exact Or.inl (by simp [logEv])
      · exact Or.inr (by simp [logEv])

theorem findSale_updateTx (s : ServerState) (id : String)
    (f : TxRecord → TxRecord) (sid : Nat) :
    findSale (updateTx s id f) sid = findSale s sid := rfl

theorem findSale_addError (s : ServerState) (ty : String)
    (sub : Option String) (tx : Option String) (sl : Option Nat) (sid : Nat) :
    findSale (addError s ty sub tx sl) sid = findSale s sid := rfl

theorem findSale_logEv (s : ServerState) (e : Ev) (sid : Nat) :
    findSale (logEv s e) sid = findSale s sid := rfl

theorem errors_updateTx (s : ServerState) (id : String)
    (f : TxRecord → TxRecord) : (updateTx s id f).errors = s.errors := rfl

theorem errors_updateSaleStatus (s : ServerState) (sid : Nat) (st : String)
    (em : Option String) :
    (updateSaleStatus s sid st em).errors = s.errors := rfl

theorem errors_logEv (s : ServerState) (e : Ev) :
    (logEv s e).errors = s.errors := rfl

theorem errors_addError (s : ServerState) (ty : String) (sub : Option String)
    (tx : Option String) (sl : Option Nat) :
    (addError s ty sub tx sl).errors = s.errors ++
      [ErrorRecord.mk ty sub tx sl] := rfl

theorem events_updateTx (s : ServerState) (id : String)
    (f : TxRecord → TxRecord) : (updateTx s id f).events = s.events := rfl

theorem events_updateSaleStatus (s : ServerState) (sid : Nat) (st : String)
    (em : Option String) :
    (updateSaleStatus s sid st em).events = s.events := rfl

theorem events_addError (s : ServerState) (ty : String) (sub : Option String)
    (tx : Option String) (sl : Option Nat) :
    (addError s ty sub tx sl).events = s.events := rfl

theorem events_logEv (s : ServerState) (e : Ev) :
    (logEv s e).events = s.events ++ [e] := rfl

theorem atFloat_updateTx (s : ServerState) (id : String)
    (f : TxRecord → TxRecord) : (updateTx s id f).atFloat = s.atFloat := rfl

theorem atFloat_updateSaleStatus (s : ServerState) (sid : Nat) (st : String)
    (em : Option String) :
    (updateSaleStatus s sid st em).atFloat = s.atFloat := rfl

theorem atFloat_addError (s : ServerState) (ty : String) (sub : Option String)
    (tx : Option String) (sl : Option Nat) :
    (addError s ty sub tx sl).atFloat = s.atFloat := rfl

theorem atFloat_logEv (s : ServerState) (e : Ev) :
    (logEv s e).atFloat = s.atFloat := rfl

theorem sales_addError (s : ServerState) (ty : String) (sub : Option String)
    (tx : Option String) (sl : Option Nat) :
    (addError s ty sub tx sl).sales = s.sales := rfl

theorem sales_logEv (s : ServerState) (e : Ev) :
    (logEv s e).sales = s.sales := rfl

/-- C10: for every confirmation that reaches the dispatch step, the
dispatch-failure handling (marking the sale FAILED_DISPATCH_API with the
raw error, appending the AIRTIME_API_FAIL error record, and attempting
the compensating credit-back) executes exactly when the dispatch
result newSafaricomFloatBalance field is null, independently of the
result status; when that field is anything other than null (including
the undefined of every Africas Talking result and of every FAILED
result), the handler instead attempts a direct write of the Safaricom
float document with that value, leaves the error log without a new
AIRTIME_SALE_ERROR record, never touches the Africas Talking pool, and
gives the sale the status COMPLETED or FAILED as determined by the
status field alone. -/
theorem C10_failure_handling_gated_on_null_balance
    (txId topup : String) (amount : ℤ) (carrier poolName : String)
    (saleId : Nat) (r : DispatchResult) (w : World) (s : ServerState)
    (rec : SaleRecord)
    (hpool : poolName = "safaricomFloat" ∨ poolName = "africasTalkingFloat")
    (hsale : findSale s saleId = some rec) :
    (r.newSafaricomFloatBalance = JsOpt.jnull →
      findSale (postDispatch txId topup amount carrier poolName saleId r w s)
          saleId
        = some { rec with
                  status := "FAILED_DISPATCH_API"
                  errorMessage := r.error } ∧
      countErrSub (postDispatch txId topup amount carrier poolName saleId r w s)
          "AIRTIME_SALE_ERROR" ("AIRTIME_API_FAIL_" ++ jsToUpperCase carrier)
        = countErrSub s "AIRTIME_SALE_ERROR"
            ("AIRTIME_API_FAIL_" ++ jsToUpperCase carrier) + 1 ∧
      ((postDispatch txId topup amount carrier poolName saleId r w s).events
          = s.events ++ [Ev.adjustAttempt poolName amount] ∨
       (postDispatch txId topup amount carrier poolName saleId r w s).events
          = s.events ++ [Ev.adjustAttempt poolName amount,
              Ev.adjustCommit poolName amount])) ∧
    (r.newSafaricomFloatBalance ≠ JsOpt.jnull →
      findSale (postDispatch txId topup amount carrier poolName saleId r w s)
          saleId
        = some { rec with
                  status := if r.status = "SUCCESS" then "COMPLETED"
                    else "FAILED"
                  errorMessage := none } ∧
      countErrTy (postDispatch txId topup amount carrier poolName saleId r w s)
          "AIRTIME_SALE_ERROR"
        = countErrTy s "AIRTIME_SALE_ERROR" ∧
      (postDispatch txId topup amount carrier poolName saleId r w s).events
        = s.events ++ [Ev.reconWriteAttempt r.newSafaricomFloatBalance] ∧
      (postDispatch txId topup amount carrier poolName saleId r w s).atFloat
        = s.atFloat) := by
  constructor
  · intro hb
    unfold postDispatch
    rw [if_neg (by simp [hb])]
    dsimp only
    rcases hu : updateCarrierFloatBalance
        (addError s "AIRTIME_SALE_ERROR"
          (some ("AIRTIME_API_FAIL_" ++ jsToUpperCase carrier))
          (some txId) (some saleId))
        poolName amount w.reversalTxFails with ⟨s2, res⟩
    have hfix := ledger_fixed_fields
        (addError s "AIRTIME_SALE_ERROR"
          (some ("AIRTIME_API_FAIL_" ++ jsToUpperCase carrier))
          (some txId) (some saleId))
        poolName amount w.reversalTxFails
    rw [hu] at hfix
    have hev := ledger_events_shape
        (addError s "AIRTIME_SALE_ERROR"
          (some ("AIRTIME_API_FAIL_" ++ jsToUpperCase carrier))
          (some txId) (some saleId))
        poolName amount w.reversalTxFails hpool
    rw [hu] at hev
    have hs2sales : s2.sales = s.sales := by
      simpa [sales_addError] using hfix.2.1
    have hs2err : s2.errors = s.errors ++
        [ErrorRecord.mk "AIRTIME_SALE_ERROR"
          (some ("AIRTIME_API_FAIL_" ++ jsToUpperCase carrier))
          (some txId) (some saleId)] := by
      simpa [errors_addError] using hfix.2.2.1
    have hs2ev : s2.events = s.events ++ [Ev.adjustAttempt poolName amount] ∨
        s2.events = s.events ++ [Ev.adjustAttempt poolName amount,
          Ev.adjustCommit poolName amount] := by
      simpa [events_addError] using hev
    cases res with
    | ok nb =>
        dsimp only [finishSale]
        refine ⟨?_, ?_, ?_⟩
        · rw [findSale_updateTx, findSale_updateSaleStatus,
            findSale_congr s2 s saleId hs2sales, hsale]
          rfl
        · show ((updateTx (updateSaleStatus s2 _ _ _) _ _).errors.filter
            _).length = _
          rw [errors_updateTx, errors_updateSaleStatus, hs2err]
          simp [countErrSub, List.filter_append]
        · rw [events_updateTx, events_updateSaleStatus]
          exact hs2ev
    | error e =>
        dsimp only [finishSale]
        refine ⟨?_, ?_, ?_⟩
        · rw [findSale_updateTx, findSale_updateSaleStatus, findSale_addError,
            findSale_congr s2 s saleId hs2sales, hsale]
          rfl
        · show ((updateTx (updateSaleStatus (addError s2 _ _ _ _) _ _ _)
            _ _).errors.filter _).length = _
          rw [errors_updateTx, errors_updateSaleStatus, errors_addError,
            hs2err]
          simp [countErrSub, List.filter_append]
        · rw [events_updateTx, events_updateSaleStatus, events_addError]
          exact hs2ev
  · intro hb
    unfold postDispatch
    rw [if_pos hb]
    dsimp only
    split
    all_goals split
    all_goals dsimp only [finishSale]
    all_goals refine ⟨?_, ?_, ?_, ?_⟩
    all_goals
      first
      | (rw [findSale_updateTx, findSale_updateSaleStatus]
         first
         | (rw [findSale_addError, findSale_logEv, hsale]; rfl)
         | (rw [findSale_congr _ s saleId (by rfl), hsale]; rfl))
      | (show ((updateTx _ _ _).errors.filter _).length = _
         rw [errors_updateTx, errors_updateSaleStatus]
         first
         | (rw [errors_addError, errors_logEv]
            simp [countErrTy, List.filter_append])
         | rfl)
      | (rw [events_updateTx, events_updateSaleStatus]
         first
         | (rw [events_addError, events_logEv])
         | (show (s.events ++ [Ev.reconWriteAttempt
              r.newSafaricomFloatBalance] : List Ev) = _
            rfl))
      | (rw [atFloat_updateTx, atFloat_updateSaleStatus]
         first
         | (rw [atFloat_addError, atFloat_logEv])
         | rfl)

/-- Witness for C10 at a concrete input: a SUCCESS Safaricom dispatch
result whose parsed balance is null sends the handler into the failure
handling, marking the sale FAILED_DISPATCH_API and attempting the
credit-back. -/
theorem C10_failure_handling_gated_on_null_balance_witness :
    ("safaricomFloat" = "safaricomFloat" ∨
        "safaricomFloat" = "africasTalkingFloat") ∧
    findSale stateWithSale 0 = some saleRec0 ∧
    (sendSafaricomAirtime "0712345678" 50
        wSafOkNoBalance.saf).newSafaricomFloatBalance = JsOpt.jnull ∧
    findSale (postDispatch "TX1" "0712345678" 50 "Safaricom"
        "safaricomFloat" 0
        (sendSafaricomAirtime "0712345678" 50 wSafOkNoBalance.saf)
        wSafOkNoBalance stateWithSale) 0
      = some { saleRec0 with
                status := "FAILED_DISPATCH_API"
                errorMessage :=
                  (sendSafaricomAirtime "0712345678" 50
                    wSafOkNoBalance.saf).error } ∧
    ((postDispatch "TX1" "0712345678" 50 "Safaricom" "safaricomFloat" 0
        (sendSafaricomAirtime "0712345678" 50 wSafOkNoBalance.saf)
        wSafOkNoBalance stateWithSale).events
      = stateWithSale.events ++ [Ev.adjustAttempt "safaricomFloat" 50] ∨
     (postDispatch "TX1" "0712345678" 50 "Safaricom" "safaricomFloat" 0
        (sendSafaricomAirtime "0712345678" 50 wSafOkNoBalance.saf)
        wSafOkNoBalance stateWithSale).events
      = stateWithSale.events ++ [Ev.adjustAttempt "safaricomFloat" 50,
          Ev.adjustCommit "safaricomFloat" 50]) := by
  refine ⟨Or.inl rfl, by decide, by decide, ?_, ?_⟩
  · exact ((C10_failure_handling_gated_on_null_balance "TX1" "0712345678"
      50 "Safaricom" "safaricomFloat" 0
      (sendSafaricomAirtime "0712345678" 50 wSafOkNoBalance.saf)
      wSafOkNoBalance stateWithSale saleRec0 (Or.inl rfl)
      (by decide)).1 (by decide)).1
  · exact ((C10_failure_handling_gated_on_null_balance "TX1" "0712345678"
      50 "Safaricom" "safaricomFloat" 0
      (sendSafaricomAirtime "0712345678" 50 wSafOkNoBalance.saf)
      wSafOkNoBalance stateWithSale saleRec0 (Or.inl rfl)
      (by decide)).1 (by decide)).2.2

theorem salesFor_updateSaleStatus (s : ServerState) (sid : Nat)
    (st : String) (em : Option String) (txId : String) :
    salesFor (updateSaleStatus s sid st em) txId = salesFor s txId := by
  unfold salesFor updateSaleStatus
  simp only []
  induction s.sales with
  | nil => rfl
  | cons a l ih =>
      simp only [List.map_cons, List.filter_cons]
      by_cases h : a.saleId = sid
      all_goals by_cases hr : a.relatedTransactionId = txId
      all_goals simp [h, hr, ih]

theorem salesFor_addError (s : ServerState) (ty : String)
    (sub : Option String) (tx : Option String) (sl : Option Nat)
    (txId : String) :
    salesFor (addError s ty sub tx sl) txId = salesFor s txId := rfl

theorem salesFor_logEv (s : ServerState) (e : Ev) (txId : String) :
    salesFor (logEv s e) txId = salesFor s txId := rfl

theorem salesFor_updateTx (s : ServerState) (id : String)
    (f : TxRecord → TxRecord) (txId : String) :
    salesFor (updateTx s id f) txId = salesFor s txId := rfl

theorem salesFor_createSale (s : ServerState) (t n : String) (a : ℤ)
    (c : String) (txId : String) :
    salesFor (createSale s t n a c).1 txId
      = salesFor s txId + (if t = txId then 1 else 0) := by
  unfold salesFor createSale
  simp only [List.filter_append, List.length_append]
  by_cases h : t = txId <;> simp [h]

theorem salesFor_ledger (s : ServerState) (n : String) (a : ℤ) (f : Bool)
    (txId : String) :
    salesFor (updateCarrierFloatBalance s n a f).1 txId
      = salesFor s txId := by
  unfold salesFor
  rw [(ledger_fixed_fields s n a f).2.1]

theorem salesFor_finishSale (txId2 : String) (sid : Nat) (fs : String)
    (em : Option String) (s : ServerState) (txId : String) :
    salesFor (finishSale txId2 sid fs em s) txId = salesFor s txId := by
  unfold finishSale
  rw [salesFor_updateTx, salesFor_updateSaleStatus]

theorem salesFor_postDispatch (txId2 topup : String) (amount : ℤ)
    (carrier poolName : String) (sid : Nat) (r : DispatchResult)
    (w : World) (s : ServerState) (txId : String) :
    salesFor (postDispatch txId2 topup amount carrier poolName sid r w s)
      txId = salesFor s txId := by
  unfold postDispatch
  dsimp only
  split
  · rw [salesFor_finishSale]
    split
    · rfl
    · rw [salesFor_addError, salesFor_logEv]
  · rcases hu : updateCarrierFloatBalance
        (addError s "AIRTIME_SALE_ERROR"
          (some ("AIRTIME_API_FAIL_" ++ jsToUpperCase carrier))
          (some txId2) (some sid))
        poolName amount w.reversalTxFails with ⟨s2, res⟩
    have hfor := salesFor_ledger
        (addError s "AIRTIME_SALE_ERROR"
          (some ("AIRTIME_API_FAIL_" ++ jsToUpperCase carrier))
          (some txId2) (some sid))
        poolName amount w.reversalTxFails txId
    rw [hu] at hfor
    cases res with
    | ok nb =>
        dsimp only
        rw [salesFor_finishSale, hfor, salesFor_addError]
    | error e =>
        dsimp only
        rw [salesFor_finishSale, salesFor_addError, hfor, salesFor_addError]

theorem salesFor_catchPath (txId2 : String) (sid : Option Nat)
    (fd : Bool) (pn : Option String) (s : ServerState) (txId : String) :
    salesFor (catchPath txId2 sid fd pn s) txId = salesFor s txId := by
  unfold catchPath
  dsimp only
  split
  · split
    · rw [salesFor_addError, salesFor_updateSaleStatus, salesFor_updateTx,
        salesFor_addError]
    · rw [salesFor_addError, salesFor_updateTx, salesFor_addError]
  · split
    · rw [salesFor_updateSaleStatus, salesFor_updateTx, salesFor_addError]
    · rw [salesFor_updateTx, salesFor_addError]

theorem txSome_updateTx (s : ServerState) (id : String)
    (f : TxRecord → TxRecord) (k : String) :
    ((updateTx s id f).transactions k).isSome
      = (s.transactions k).isSome := by
  unfold updateTx
  by_cases h : k = id <;> simp [h]

theorem txSome_recordTx (req : C2BReq) (s : ServerState) :
    ((recordTx req s).transactions req.TransID).isSome = true := by
  unfold recordTx
  simp

theorem txSome_finishSale (txId2 : String) (sid : Nat) (fs : String)
    (em : Option String) (s : ServerState) (k : String) :
    ((finishSale txId2 sid fs em s).transactions k).isSome
      = (s.transactions k).isSome := by
  unfold finishSale
  rw [txSome_updateTx]
  rfl

theorem txSome_postDispatch (txId2 topup : String) (amount : ℤ)
    (carrier poolName : String) (sid : Nat) (r : DispatchResult)
    (w : World) (s : ServerState) (k : String) :
    ((postDispatch txId2 topup amount carrier poolName sid r w s).transactions
        k).isSome
      = (s.transactions k).isSome := by
  unfold postDispatch
  dsimp only
  split
  · rw [txSome_finishSale]
    split
    · rfl
    · rfl
  · rcases hu : updateCarrierFloatBalance
        (addError s "AIRTIME_SALE_ERROR"
          (some ("AIRTIME_API_FAIL_" ++ jsToUpperCase carrier))
          (some txId2) (some sid))
        poolName amount w.reversalTxFails with ⟨s2, res⟩
    have hfix := (ledger_fixed_fields
        (addError s "AIRTIME_SALE_ERROR"
          (some ("AIRTIME_API_FAIL_" ++ jsToUpperCase carrier))
          (some txId2) (some sid))
        poolName amount w.reversalTxFails).1
    rw [hu] at hfix
    cases res with
    | ok nb =>
        dsimp only
        rw [txSome_finishSale, hfix]
        rfl
    | error e =>
        dsimp only
        rw [txSome_finishSale]
        show (s2.transactions k).isSome = _
        rw [hfix]
        rfl

theorem txSome_catchPath (txId2 : String) (sid : Option Nat) (fd : Bool)
    (pn : Option String) (s : ServerState) (k : String) :
    ((catchPath txId2 sid fd pn s).transactions k).isSome
      = (s.transactions k).isSome := by
  unfold catchPath
  dsimp only
  split
  · split
    · show ((updateTx (addError s _ _ _ _) _ _).transactions k).isSome = _
      rw [txSome_updateTx]
      rfl
    · show ((updateTx (addError s _ _ _ _) _ _).transactions k).isSome = _
      rw [txSome_updateTx]
      rfl
  · split
    · show ((updateTx (addError s _ _ _ _) _ _).transactions k).isSome = _
      rw [txSome_updateTx]
      rfl
    · show ((updateTx (addError s _ _ _ _) _ _).transactions k).isSome = _
      rw [txSome_updateTx]
      rfl

theorem handler_tx_some (req : C2BReq) (w : World) (s : ServerState) :
    ((c2bConfirmation req w s).1.transactions req.TransID).isSome
      = true := by
  unfold c2bConfirmation
  dsimp only
  split
  · rename_i t heq
    show (s.transactions req.TransID).isSome = true
    rw [heq]
    rfl
  · rename_i heq
    split
    · rw [txSome_updateTx]
      exact txSome_recordTx req s
    · split
      · rw [txSome_updateTx]
        exact txSome_recordTx req s
      · rename_i poolName hmap
        rcases hu : updateCarrierFloatBalance (recordTx req s) poolName
            (-req.TransAmount) w.debitTxFails with ⟨s2, res⟩
        have hfix := (ledger_fixed_fields (recordTx req s) poolName
            (-req.TransAmount) w.debitTxFails).1
        rw [hu] at hfix
        cases res with
        | error msg =>
            dsimp only
            rw [txSome_updateTx]
            show (s2.transactions req.TransID).isSome = true
            rw [hfix]
            exact txSome_recordTx req s
        | ok nb =>
            dsimp only
            split
            · rw [txSome_catchPath]
              show (s2.transactions req.TransID).isSome = true
              rw [hfix]
              exact txSome_recordTx req s
            · rw [txSome_postDispatch]
              show (s2.transactions req.TransID).isSome = true
              rw [hfix]
              exact txSome_recordTx req s

theorem salesFor_recordTx (req : C2BReq) (s : ServerState) (txId : String) :
    salesFor (recordTx req s) txId = salesFor s txId := rfl

theorem handler_salesFor_bound (req : C2BReq) (w : World) (s : ServerState)
    (txId : String) :
    salesFor (c2bConfirmation req w s).1 txId ≤ salesFor s txId + 1 := by
  unfold c2bConfirmation
  dsimp only
  split
  · exact Nat.le_succ _
  · split
    · rw [salesFor_updateTx, salesFor_addError, salesFor_recordTx]
      exact Nat.le_succ _
    · split
      · rw [salesFor_updateTx, salesFor_addError, salesFor_recordTx]
        exact Nat.le_succ _
      · rename_i poolName hmap
        rcases hu : updateCarrierFloatBalance (recordTx req s) poolName
            (-req.TransAmount) w.debitTxFails with ⟨s2, res⟩
        have hfor := salesFor_ledger (recordTx req s) poolName
            (-req.TransAmount) w.debitTxFails txId
        rw [hu] at hfor
        cases res with
        | error msg =>
            dsimp only
            rw [salesFor_updateTx, salesFor_addError]
            show salesFor s2 txId ≤ _
            rw [hfor, salesFor_recordTx]
            exact Nat.le_succ _
        | ok nb =>
            dsimp only
            split
            · rw [salesFor_catchPath, salesFor_logEv, salesFor_createSale,
                hfor, salesFor_recordTx]
              split <;> omega
            · rw [salesFor_postDispatch, salesFor_logEv, salesFor_createSale,
                hfor, salesFor_recordTx]
              split <;> omega

/-- C1: submitting a confirmation whose transaction id is already
recorded is a no-op: the second submission returns the duplicate-ignored
acknowledgment and leaves the entire store (payments, sales, error log,
both float pools, event trace) exactly as the first submission left it,
so two submissions of the same payload leave the one InboundPayment
created by the first submission and at most one AirtimeSale. -/
theorem C1_duplicate_confirmation_idempotent (req : C2BReq)
    (w1 w2 : World) (s0 : ServerState)
    (_hnew : s0.transactions req.TransID = none)
    (hnosale : salesFor s0 req.TransID = 0) :
    c2bConfirmation req w2 (c2bConfirmation req w1 s0).1
      = ((c2bConfirmation req w1 s0).1, dupResp) ∧
    ((c2bConfirmation req w1 s0).1.transactions req.TransID).isSome
      = true ∧
    salesFor (c2bConfirmation req w1 s0).1 req.TransID ≤ 1 := by
  have hsome := handler_tx_some req w1 s0
  obtain ⟨t, ht⟩ : ∃ t,
      (c2bConfirmation req w1 s0).1.transactions req.TransID = some t := by
    cases hopt : (c2bConfirmation req w1 s0).1.transactions req.TransID with
    | none => rw [hopt] at hsome; simp at hsome
    | some t => exact ⟨t, rfl⟩
  refine ⟨?_, hsome, ?_⟩
  · set p := c2bConfirmation req w1 s0 with hp
    unfold c2bConfirmation
    dsimp only
    rw [ht]
  · have hb := handler_salesFor_bound req w1 s0 req.TransID
    omega

/-- Witness for C1 at a concrete input: a 50-unit Safaricom confirmation
against a fresh store, submitted once in a world where the dispatch
fails and again in a different world, leaves the first submission
store untouched, answers the duplicate acknowledgment, and has at most
one sale for the transaction. -/
theorem C1_duplicate_confirmation_idempotent_witness :
    (mkState (some (BalVal.num 1000)) none).transactions reqSaf50.TransID
      = none ∧
    salesFor (mkState (some (BalVal.num 1000)) none) reqSaf50.TransID = 0 ∧
    c2bConfirmation reqSaf50 wSafOkNoBalance
        (c2bConfirmation reqSaf50 wSafTokenFail
          (mkState (some (BalVal.num 1000)) none)).1
      = ((c2bConfirmation reqSaf50 wSafTokenFail
          (mkState (some (BalVal.num 1000)) none)).1, dupResp) ∧
    salesFor (c2bConfirmation reqSaf50 wSafTokenFail
        (mkState (some (BalVal.num 1000)) none)).1 reqSaf50.TransID ≤ 1 := by
  refine ⟨rfl, rfl, ?_, ?_⟩
  · exact (C1_duplicate_confirmation_idempotent reqSaf50 wSafTokenFail
      wSafOkNoBalance (mkState (some (BalVal.num 1000)) none) rfl rfl).1
  · exact (C1_duplicate_confirmation_idempotent reqSaf50 wSafTokenFail
      wSafOkNoBalance (mkState (some (BalVal.num 1000)) none) rfl rfl).2.2

theorem applyDeltas_spec (ds : List ℤ) (b : ℤ) (hb : 0 ≤ b) :
    (applyDeltas (some (BalVal.num b)) ds).1
      = some (BalVal.num (b + (applyDeltas (some (BalVal.num b)) ds).2.sum))
      ∧ 0 ≤ b + (applyDeltas (some (BalVal.num b)) ds).2.sum := by
  induction ds generalizing b with
  | nil => simpa [applyDeltas] using hb
  | cons d rest ih =>
      unfold applyDeltas
      cases hadj : adjustDoc (some (BalVal.num b)) d with
      | ok pair =>
          obtain ⟨doc2, nb⟩ := pair
          obtain ⟨hdoc2, hnb⟩ := adjustDoc_ok_shape _ _ _ _ hadj
          have hval := (adjustDoc_ok_val _ _ _ _ hadj).1 b rfl
          subst hdoc2
          dsimp only
          obtain ⟨ih1, ih2⟩ := ih nb hnb
          constructor
          · rw [ih1]
            congr 1
            rw [List.sum_cons]
            congr 1
            omega
          · rw [List.sum_cons]
            omega
      | error e =>
          exact ih b hb

theorem ledger_ok_name (s : ServerState) (n : String) (a nb : ℤ) (f : Bool)
    (h : (updateCarrierFloatBalance s n a f).2 = Except.ok nb) :
    n = "safaricomFloat" ∨ n = "africasTalkingFloat" := by
  by_cases h1 : n = "safaricomFloat"
  · exact Or.inl h1
  · by_cases h2 : n = "africasTalkingFloat"
    · exact Or.inr h2
    · unfold updateCarrierFloatBalance at h
      rw [if_neg h1, if_neg h2] at h
      simp at h

theorem ledger_numNonneg (s : ServerState) (n : String) (a : ℤ) (f : Bool)
    (hs : numNonneg s.safFloat) (ha : numNonneg s.atFloat) :
    numNonneg (updateCarrierFloatBalance s n a f).1.safFloat ∧
    numNonneg (updateCarrierFloatBalance s n a f).1.atFloat := by
  cases hres : (updateCarrierFloatBalance s n a f).2 with
  | error e =>
      have hst := ledger_error_state s n a f e hres
      rw [hst.1, hst.2]
      exact ⟨hs, ha⟩
  | ok nb =>
      rcases ledger_ok_name s n a nb f hres with hn | hn <;> subst hn
      · have hst := ledger_ok_saf s a nb f hres
        rw [hst.1]
        refine ⟨?_, ha⟩
        intro q hq
        cases hq
        exact hst.2.1
      · have hst := ledger_ok_at s a nb f hres
        rw [hst.1]
        refine ⟨hs, ?_⟩
        intro q hq
        cases hq
        exact hst.2.1

theorem at_body_balance_undef (env : ATEnv) (r : DispatchResult)
    (h : sendAfricasTalkingBody env = Except.ok r) :
    r.newSafaricomFloatBalance = JsOpt.undef := by
  unfold sendAfricasTalkingBody at h
  cases h
  split
  · rfl
  · split
    · rfl
    · split <;> rfl

theorem dispatch_balance_nonneg (topup : String) (amount : ℤ)
    (carrier : String) (w : World) (r : DispatchResult)
    (h : dispatchAirtime topup amount carrier w = Except.ok r) :
    ∀ q, r.newSafaricomFloatBalance = JsOpt.num q → 0 ≤ q := by
  unfold dispatchAirtime at h
  split at h
  · cases h
    unfold sendSafaricomAirtime
    split
    · intro q hq; cases hq
    · split
      · intro q hq; cases hq
      · split
        · intro q hq; cases hq
        · dsimp only
          split
          · rename_i n c heq
            intro q hq
            cases hq
            omega
          · intro q hq; cases hq
          · intro q hq; cases hq
  · unfold sendAfricasTalkingAirtime at h
    split at h
    · have hb := at_body_balance_undef w.atp r h
      intro q hq
      rw [hb] at hq
      cases hq
    · split at h
      · have hb := at_body_balance_undef w.atp r h
        intro q hq
        rw [hb] at hq
        cases hq
      · split at h
        · cases h
        · have hb := at_body_balance_undef w.atp r h
          intro q hq
          rw [hb] at hq
          cases hq

theorem safFloat_finishSale (txId2 : String) (sid : Nat) (fs : String)
    (em : Option String) (s : ServerState) :
    (finishSale txId2 sid fs em s).safFloat = s.safFloat := rfl

theorem atFloat_finishSale (txId2 : String) (sid : Nat) (fs : String)
    (em : Option String) (s : ServerState) :
    (finishSale txId2 sid fs em s).atFloat = s.atFloat := rfl

theorem postDispatch_numNonneg (txId2 topup : String) (amount : ℤ)
    (carrier poolName : String) (sid : Nat) (r : DispatchResult)
    (w : World) (s : ServerState)
    (hr : ∀ q, r.newSafaricomFloatBalance = JsOpt.num q → 0 ≤ q)
    (hs : numNonneg s.safFloat) (ha : numNonneg s.atFloat) :
    numNonneg (postDispatch txId2 topup amount carrier poolName sid r w
      s).safFloat ∧
    numNonneg (postDispatch txId2 topup amount carrier poolName sid r w
      s).atFloat := by
  unfold postDispatch
  dsimp only
  split
  · rw [safFloat_finishSale, atFloat_finishSale]
    split
    · rename_i q val heq1 heq2 heq3
      constructor
      · intro q2 hq2
        cases hq2
        exact hr q heq1
      · exact ha
    · exact ⟨hs, ha⟩
  · rcases hu : updateCarrierFloatBalance
        (addError s "AIRTIME_SALE_ERROR"
          (some ("AIRTIME_API_FAIL_" ++ jsToUpperCase carrier))
          (some txId2) (some sid))
        poolName amount w.reversalTxFails with ⟨s2, res⟩
    have hled := ledger_numNonneg
        (addError s "AIRTIME_SALE_ERROR"
          (some ("AIRTIME_API_FAIL_" ++ jsToUpperCase carrier))
          (some txId2) (some sid))
        poolName amount w.reversalTxFails hs ha
    rw [hu] at hled
    cases res with
    | ok nb =>
        dsimp only
        exact hled
    | error e =>
        dsimp only
        exact hled

theorem safFloat_catchPath (txId2 : String) (sid : Option Nat) (fd : Bool)
    (pn : Option String) (s : ServerState) :
    (catchPath txId2 sid fd pn s).safFloat = s.safFloat := by
  unfold catchPath
  dsimp only
  split <;> split <;> rfl

theorem atFloat_catchPath (txId2 : String) (sid : Option Nat) (fd : Bool)
    (pn : Option String) (s : ServerState) :
    (catchPath txId2 sid fd pn s).atFloat = s.atFloat := by
  unfold catchPath
  dsimp only
  split <;> split <;> rfl

theorem handler_pools_nonneg (req : C2BReq) (w : World) (s : ServerState)
    (hs : numNonneg s.safFloat) (ha : numNonneg s.atFloat) :
    numNonneg (c2bConfirmation req w s).1.safFloat ∧
    numNonneg (c2bConfirmation req w s).1.atFloat := by
  unfold c2bConfirmation
  dsimp only
  split
  · exact ⟨hs, ha⟩
  · split
    · exact ⟨hs, ha⟩
    · split
      · exact ⟨hs, ha⟩
      · rename_i poolName hmap
        rcases hu : updateCarrierFloatBalance (recordTx req s) poolName
            (-req.TransAmount) w.debitTxFails with ⟨s2, res⟩
        have hled := ledger_numNonneg (recordTx req s) poolName
            (-req.TransAmount) w.debitTxFails hs ha
        rw [hu] at hled
        cases res with
        | error msg =>
            dsimp only
            exact hled
        | ok nb =>
            dsimp only
            split
            · rw [safFloat_catchPath, atFloat_catchPath]
              exact hled
            · rename_i r heq
              exact postDispatch_numNonneg req.TransID req.BillRefNumber
                req.TransAmount (detectCarrier req.BillRefNumber) poolName
                (createSale s2 req.TransID req.BillRefNumber
                  req.TransAmount (detectCarrier req.BillRefNumber)).2 r w _
                (dispatch_balance_nonneg req.BillRefNumber req.TransAmount
                  (detectCarrier req.BillRefNumber) w r heq)
                hled.1 hled.2

/-- C3: for every float pool, a sequence of ledger adjustments starting
from a zero-initialized balance leaves the stored balance equal to the
sum of the committed deltas and that sum nonnegative; and every state
reachable through the confirmation handler (whose pool writes are the
ledger debit, the ledger credit-back, and the direct write of the
provider-reported balance parsed from the two-decimal regex) keeps
every numeric pool balance nonnegative. -/
theorem C3_balance_sum_of_deltas_and_nonneg :
    (∀ ds : List ℤ,
      (applyDeltas (some (BalVal.num 0)) ds).1
        = some (BalVal.num
            ((applyDeltas (some (BalVal.num 0)) ds).2.sum)) ∧
      0 ≤ (applyDeltas (some (BalVal.num 0)) ds).2.sum) ∧
    (∀ (req : C2BReq) (w : World) (s : ServerState),
      numNonneg s.safFloat → numNonneg s.atFloat →
      numNonneg (c2bConfirmation req w s).1.safFloat ∧
      numNonneg (c2bConfirmation req w s).1.atFloat) := by
  constructor
  · intro ds
    have h := applyDeltas_spec ds 0 le_rfl
    simpa using h
  · intro req w s hs ha
    exact handler_pools_nonneg req w s hs ha

/-- Witness for C3 at concrete inputs: committing the deltas 30 and -10
from zero gives the stored balance 20 (their sum), and running a full
confirmation against pools holding 1000 and 500 keeps both balances
nonnegative. -/
theorem C3_balance_sum_of_deltas_and_nonneg_witness :
    ((applyDeltas (some (BalVal.num 0)) [30, -10]).1
        = some (BalVal.num
            ((applyDeltas (some (BalVal.num 0)) [30, -10]).2.sum)) ∧
      0 ≤ (applyDeltas (some (BalVal.num 0)) [30, -10]).2.sum) ∧
    numNonneg (mkState (some (BalVal.num 1000))
      (some (BalVal.num 500))).safFloat ∧
    numNonneg (mkState (some (BalVal.num 1000))
      (some (BalVal.num 500))).atFloat ∧
    (numNonneg (c2bConfirmation reqSaf50 wSafOkNoBalance
        (mkState (some (BalVal.num 1000))
          (some (BalVal.num 500)))).1.safFloat ∧
     numNonneg (c2bConfirmation reqSaf50 wSafOkNoBalance
        (mkState (some (BalVal.num 1000))
          (some (BalVal.num 500)))).1.atFloat) := by
  refine ⟨C3_balance_sum_of_deltas_and_nonneg.1 [30, -10], ?_, ?_, ?_⟩
  · intro q h
    cases h
    decide
  · intro q h
    cases h
    decide
  · exact C3_balance_sum_of_deltas_and_nonneg.2 reqSaf50 wSafOkNoBalance
      (mkState (some (BalVal.num 1000)) (some (BalVal.num 500)))
      (by intro q h; cases h; decide)
      (by intro q h; cases h; decide)
